import Mathlib

/-!
Verification development for the probuild-leads permit pipeline
(`src/fetch_permits.py`, `src/clean_permits.py`).

Shallow embedding conventions:
* A pandas DataFrame is a `List RawRow`; a missing column is modelled as the
  field being `none` in every row (the two are indistinguishable for the
  behaviours treated here, see the notes on each definition).
* `APPLICATION_DATE` is modelled post-`pd.to_datetime(errors='coerce')`:
  `Option Nat` with dates encoded as decimal `yyyymmdd` (this encoding is
  order-isomorphic to calendar order for valid dates, and subtracting
  `10000` is "minus 12 months"); `none` is NaT (missing or unparsable).
* Numeric values are `PyNum`: finite values are kept exact as rationals
  (the claims only involve decimal values a float represents exactly) and
  the float infinities are explicit constructors; NaN needs no
  representative because `fillna(0.0)` replaces it before use.
* The result dict of `transform_permit_data` is a structure whose `Option`
  fields model presence/absence of the corresponding dict key.
* Wall-clock data (the `metadata.timestamp` of a success result, log
  output) and presentation-only formatting (the `"$x,.2f"` currency string
  applied to `Construction Value`, `fields_with_defaults` diagnostics) are
  outside the embedding.
-/

namespace ProBuild

/-- Test whether `pre` is a leading segment of the second list
(the `startswith` relation used to implement substring search). -/
def leadsWith : List Char → List Char → Bool
  | [], _ => true
  | _ :: _, [] => false
  | a :: as, b :: bs => a == b && leadsWith as bs

/-- Test whether `needle` occurs as a contiguous segment of `hay`
(Python's `needle in hay` on strings). -/
def hasSub : List Char → List Char → Bool
  | [], needle => needle.isEmpty
  | h :: t, needle => leadsWith needle (h :: t) || hasSub t needle

/-- Python's `sub in s` substring test. -/
def containsStr (s sub : String) : Bool := hasSub s.data sub.data

/-- Drop leading whitespace characters. -/
def dropWS : List Char → List Char
  | [] => []
  | c :: t => if c.isWhitespace then dropWS t else c :: t

/-- Python's `str.strip()` (and the `.str.strip()` used on the text
columns): whitespace removed from both ends. -/
def pyStrip (s : String) : String :=
  ⟨(dropWS (dropWS s.data).reverse).reverse⟩

/-- Python's `str.lower()`. -/
def pyLower (s : String) : String := ⟨s.data.map Char.toLower⟩

/-- Python's `str.title()`: the first alphabetic character of every run of
alphabetic characters is upper-cased, the rest lower-cased. -/
def titleChars : Bool → List Char → List Char
  | _, [] => []
  | prev, c :: t =>
    if c.isAlpha then
      (if prev then c.toLower else c.toUpper) :: titleChars true t
    else
      c :: titleChars false t

/-- Python's `str.title()` on a string. -/
def pyTitle (s : String) : String := ⟨titleChars false s.data⟩

/-- Parse a run of decimal digits, returning the accumulated value and the
number of digits consumed, or `none` when a non-digit is hit. -/
def digitsVal : List Char → Option (Nat × Nat)
  | [] => some (0, 0)
  | c :: t =>
    if c.isDigit then
      match digitsVal t with
      | some (v, k) => some ((c.toNat - '0'.toNat) * 10 ^ k + v, k + 1)
      | none => none
    else none

/-- A non-NaN Python float value: a finite number (kept exact as a
rational) or one of the two infinities that the float grammar's
`inf`/`infinity` forms produce. NaN never needs a representative: in
`transform_permit_data` every NaN is replaced by `fillna(0.0)` before the
value is used, so a parse yielding NaN and a failed parse coerce alike. -/
inductive PyNum where
  | fin : Rat → PyNum
  | pinf : PyNum
  | ninf : PyNum
deriving DecidableEq

/-- Python's unary minus on a non-NaN float value. -/
def PyNum.neg : PyNum → PyNum
  | .fin q => .fin (-q)
  | .pinf => .ninf
  | .ninf => .pinf

/-- Python's `n <= v` comparison of a natural threshold against a non-NaN
float value (`value >= 1000000` in `determine_priority`). -/
def PyNum.ge : PyNum → Nat → Bool
  | .fin q, n => decide (mkRat n 1 ≤ q)
  | .pinf, _ => true
  | .ninf, _ => false

/-- Python's `0 <= v` on a non-NaN float value. -/
def PyNum.nonneg (v : PyNum) : Prop := v.ge 0 = true

instance (v : PyNum) : Decidable v.nonneg :=
  inferInstanceAs (Decidable (v.ge 0 = true))

/-- The finite part of the float grammar after sign removal:
`digits [. digits] [e [sign] digits]` with at least one mantissa digit and
at least one exponent digit, nothing left over. The value is exact: a
mantissa over a power of ten, scaled by the power of ten of the
exponent. -/
def parseFinite (cs : List Char) : Option Rat :=
  let (intDigits, rest1) := cs.span Char.isDigit
  let (fracDigits, rest2) :=
    match rest1 with
    | '.' :: r => r.span Char.isDigit
    | _ => ([], rest1)
  match digitsVal intDigits, digitsVal fracDigits with
  | some (iv, ik), some (fv, fk) =>
    if ik + fk = 0 then none
    else
      let mantNum := iv * 10 ^ fk + fv
      match rest2 with
      | [] => some (mkRat mantNum (10 ^ fk))
      | 'e' :: es =>
        let (eneg, ds) :=
          match es with
          | '-' :: ds => (true, ds)
          | '+' :: ds => (false, ds)
          | ds => (false, ds)
        match digitsVal ds with
        | some (ev, ek) =>
          if ek = 0 then none
          else if eneg then some (mkRat mantNum (10 ^ fk * 10 ^ ev))
          else some (mkRat (mantNum * 10 ^ ev) (10 ^ fk))
        | none => none
      | _ => none
  | _, _ => none

/-- Parse a string through the Python float grammar used by
`pd.to_numeric` / `float()`: optional sign, then either a finite literal
(`123`, `-4.5`, `.5`, `6.`, `-1e5`, `2.5E-3`), an infinity
(`inf`/`infinity`, any case) or `nan`. A NaN result is returned as `none`:
downstream it is indistinguishable from a failed parse, because
`fillna(0.0)` replaces it (see `PyNum`). Anything else — including
currency symbols and thousands separators such as `"$1,000"` — fails to
parse. -/
def parseDecimal (s : String) : Option PyNum :=
  let t := (pyLower (pyStrip s)).data
  let core : List Char → Option PyNum := fun cs =>
    if cs = ['i', 'n', 'f'] ∨ cs = "infinity".data then some PyNum.pinf
    else if cs = "nan".data then none
    else (parseFinite cs).map PyNum.fin
  match t with
  | '-' :: rest => (core rest).map PyNum.neg
  | '+' :: rest => core rest
  | _ => core t

/-- Net construction-value coercion of `transform_permit_data`
(`fetch_permits.py` lines 210-212 and 330-332): the `fillna(0.0)` default
fill followed by `pd.to_numeric(errors='coerce')` and a second
`fillna(0.0)` — missing, unparsable and NaN values all become `0`, no row
is dropped and nothing raises; finite values (scientific notation
included) and infinities pass through. -/
def coerceValue : Option String → PyNum
  | none => PyNum.fin 0
  | some s => (parseDecimal s).getD (PyNum.fin 0)

/-- Construction-value parse of `clean_building_permits`
(`clean_permits.py` line 73): strip every `$` and `,` character, then
`astype(float)`; `none` models the `ValueError` raised on a string that
still fails to parse (or a NaN, which the `dropna` on line 78 removes). -/
def cleanValue (s : String) : Option PyNum :=
  parseDecimal ⟨s.data.filter (fun c => c ≠ '$' ∧ c ≠ ',')⟩

/-- Raw upstream row (one record of the input DataFrame of
`transform_permit_data`). `none` models a null cell; a DataFrame missing a
column entirely is modelled as every row holding `none` in that field.
`application_date` is the value after `pd.to_datetime(errors='coerce')`,
encoded `yyyymmdd`; `none` is NaT. -/
structure RawRow where
  permitno : Option String
  permit_type : Option String
  permit_status : Option String
  construction_value : Option String
  work_type : Option String
  sub_work_type : Option String
  permit_description : Option String
  foldername : Option String
  application_date : Option Nat
deriving DecidableEq

/-- Row after the step-1 default fill: every text field holds a string. -/
structure FilledRow where
  permitno : String
  permit_type : String
  permit_status : String
  construction_value : Option String
  work_type : String
  sub_work_type : String
  permit_description : String
  foldername : String
  application_date : Option Nat
deriving DecidableEq

/-- Step 1 of `transform_permit_data` (lines 209-212): `fillna` each column
from the module constant `DEFAULT_VALUES`. The `CONSTRUCTION_VALUE` default
`0.0` is realized below by `coerceValue none = 0`. -/
def fillDefaults (r : RawRow) : FilledRow :=
  { permitno := r.permitno.getD "UNKNOWN"
    permit_type := r.permit_type.getD "Unknown"
    permit_status := r.permit_status.getD "Unknown"
    construction_value := r.construction_value
    work_type := r.work_type.getD "Unknown"
    sub_work_type := r.sub_work_type.getD "Unknown"
    permit_description := r.permit_description.getD "No description provided"
    foldername := r.foldername.getD "Address not provided"
    application_date := r.application_date }

/-- Step 4 text standardization (lines 325-328): `.str.strip().str.title()`
on `PERMIT_TYPE`, `PERMIT_STATUS`, `WORK_TYPE`, `SUB_WORK_TYPE` only. -/
def standardize (r : FilledRow) : FilledRow :=
  { r with
    permit_type := pyTitle (pyStrip r.permit_type)
    permit_status := pyTitle (pyStrip r.permit_status)
    work_type := pyTitle (pyStrip r.work_type)
    sub_work_type := pyTitle (pyStrip r.sub_work_type) }

/-- The classifier `determine_contractor_type` (`fetch_permits.py` lines
128-154), given the row fields it reads. The source also lower-cases
`PERMIT_TYPE` but its rules never consult it; the `except` fallback
(`return 'General'`) is unreachable in this total embedding. -/
def determine_contractor_type
    (work_type permit_type description sub_work_type : String) : String :=
  let wt := pyLower work_type
  let _pt := pyLower permit_type
  let d := pyLower description
  let swt := pyLower sub_work_type
  if ["garden suite", "addition to building", "addition"].any
      (fun t => containsStr wt t) then "General Contractors"
  else if ["bathroom", "plumbing"].any
      (fun t => containsStr d t || containsStr swt t) then "Plumbers"
  else if containsStr wt "interior finish" || containsStr swt "interior finish"
      then "Electricians"
  else "General"

/-- The classifier `determine_priority` (`fetch_permits.py` lines 346-369),
given the row fields it reads; the `except` fallback (`return 'Low'`) is
unreachable in this total embedding since `value` is already numeric. -/
def determine_priority (work_type permit_type : String) (value : PyNum) :
    String :=
  let wt := pyLower work_type
  let pt := pyLower permit_type
  if value.ge 1000000 then "High"
  else if ["renovation", "alteration", "addition"].any
      (fun t => containsStr wt t) then "High"
  else if containsStr wt "new construction" && containsStr pt "residential"
      then "High"
  else if value.ge 500000 then "Medium"
  else if containsStr pt "residential" then "Medium"
  else "Low"

/-- One record of the success result's `permits` list. The source renders
`Application Date` as a `%Y-%m-%d` string and `Construction Value` as a
`"$x,.2f"` currency string; both renderings are order/value-faithful to the
`Nat`/`PyNum` kept here and are treated as presentation. -/
structure Permit where
  permit_number : String
  permit_type : String
  application_date : Nat
  status : String
  construction_value : PyNum
  work_type : String
  sub_work_type : String
  description : String
  property_address : String
  lead_priority : String
  contractor_type : String
deriving DecidableEq

/-- Steps 4-7 applied to one surviving row: standardize text, coerce the
construction value, classify, and select/rename the output fields. -/
def mkPermit (r : FilledRow) : Permit :=
  let s := standardize r
  let v := coerceValue s.construction_value
  { permit_number := s.permitno
    permit_type := s.permit_type
    application_date := s.application_date.getD 0
    status := s.permit_status
    construction_value := v
    work_type := s.work_type
    sub_work_type := s.sub_work_type
    description := s.permit_description
    property_address := s.foldername
    lead_priority := determine_priority s.work_type s.permit_type v
    contractor_type :=
      determine_contractor_type s.work_type s.permit_type
        s.permit_description s.sub_work_type }

/-- Lower bound of the hard-coded filter window (line 261). -/
def startDate : Nat := 20240101

/-- Upper bound of the hard-coded filter window (line 262). -/
def endDate : Nat := 20251231

/-- The step-3 date filter predicate (lines 274-277):
`APPLICATION_DATE >= start AND APPLICATION_DATE <= end`; a NaT never
compares true in pandas (unreachable here anyway, the rows were dropped). -/
def inWindow (r : FilledRow) : Bool :=
  match r.application_date with
  | some d => decide (startDate ≤ d) && decide (d ≤ endDate)
  | none => false

/-- Step-1 default fill over the whole batch. -/
def filledRows (df : List RawRow) : List FilledRow := df.map fillDefaults

/-- Rows surviving step-2 date validation (`dropna` on the parsed dates,
line 244). -/
def validRows (df : List RawRow) : List FilledRow :=
  (filledRows df).filter (fun r => r.application_date.isSome)

/-- Rows surviving the step-3 window filter (line 274). -/
def recentRows (df : List RawRow) : List FilledRow :=
  (validRows df).filter inWindow

/-- The success result's permit list: every surviving row, in input order
(the source applies only row-wise column operations after the filter and
never sorts). -/
def pipelinePermits (df : List RawRow) : List Permit :=
  (recentRows df).map mkPermit

/-- Pandas `value_counts().to_dict()`: one entry per distinct value with
its multiplicity (entry order in the Python dict is by descending count, a
presentation detail not modelled). -/
def valueCounts (l : List String) : List (String × Nat) :=
  l.dedup.map (fun s => (s, l.count s))

/-- Minimum of a list of dates (`Series.min`), `0` on the empty list (the
source only evaluates it on non-empty data). -/
def natsMin : List Nat → Nat
  | [] => 0
  | h :: t => t.foldl Nat.min h

/-- Maximum of a list of dates (`Series.max`). -/
def natsMax : List Nat → Nat
  | [] => 0
  | h :: t => t.foldl Nat.max h

/-- The success result's `summary` block (lines 401-420).
`fields_with_defaults` (a per-field diagnostic count) is presentation-level
and not modelled; no claim mentions it. -/
structure Summary where
  total_permits : Nat
  priority_distribution : List (String × Nat)
  contractor_type_distribution : List (String × Nat)
  permit_type_distribution : List (String × Nat)
  date_start : Nat
  date_end : Nat
  original_records : Nat
  invalid_dates_removed : Nat
  records_within_time_range : Nat
deriving DecidableEq

/-- Build the summary exactly as lines 401-420 do, from the final permit
list and the two counts carried from the earlier stages. -/
def buildSummary (orig invalid : Nat) (ps : List Permit) : Summary :=
  { total_permits := ps.length
    priority_distribution := valueCounts (ps.map Permit.lead_priority)
    contractor_type_distribution := valueCounts (ps.map Permit.contractor_type)
    permit_type_distribution := valueCounts (ps.map Permit.permit_type)
    date_start := natsMin (ps.map Permit.application_date)
    date_end := natsMax (ps.map Permit.application_date)
    original_records := orig
    invalid_dates_removed := invalid
    records_within_time_range := ps.length }

/-- The `metadata` block of the warning result (lines 308-318); its
`date_range` sub-block of four formatted date strings is presentation. -/
structure WarnMeta where
  total_records_processed : Nat
  invalid_dates_removed : Nat
  old_permits_filtered : Nat
deriving DecidableEq

/-- The dict returned by `transform_permit_data`. An `Option` field is
`none` exactly when the corresponding key is absent from the returned
Python dict; the success branch's `metadata` (wall-clock timestamp plus
constant filter labels) is outside the embedding. -/
structure TransformResult where
  status : String
  error_type : Option String
  message : Option String
  details : Option String
  summary : Option Summary
  permits : Option (List Permit)
  warn_metadata : Option WarnMeta
deriving DecidableEq

/-- The two early-return error dicts (lines 170-175 and 250-255). -/
def validationError (msg det : String) : TransformResult :=
  { status := "error", error_type := some "validation_error"
    message := some msg, details := some det
    summary := none, permits := none, warn_metadata := none }

/-- The dict built by the `except` handler (lines 442-447): any exception
raised by a stage is caught and converted to this structured result. -/
def processingError (det : String) : TransformResult :=
  { status := "error", error_type := some "processing_error"
    message := some "Error processing permit data", details := some det
    summary := none, permits := none, warn_metadata := none }

/-- The empty-after-filter warning dict (lines 302-319). -/
def warningResult (orig invalid filtered : Nat) : TransformResult :=
  { status := "warning", error_type := none
    message := some "No permits found for 2024-2025"
    details := some "No permits found between 2024-01-01 and 2025-12-31"
    summary := none, permits := none
    warn_metadata := some { total_records_processed := orig
                            invalid_dates_removed := invalid
                            old_permits_filtered := filtered } }

/-- The success dict (lines 423-434). -/
def successResult (orig invalid : Nat) (ps : List Permit) : TransformResult :=
  { status := "success", error_type := none, message := none, details := none
    summary := some (buildSummary orig invalid ps), permits := some ps
    warn_metadata := none }

/-- The whole of `transform_permit_data` (`fetch_permits.py` lines
156-447): guard against an empty batch, fill defaults, drop rows with
unparsable dates (error if none remain), filter to the hard-coded
2024-2025 window (warning if none remain), then standardize, coerce,
classify and aggregate the survivors. -/
def transform (df : List RawRow) : TransformResult :=
  if df.isEmpty then
    validationError "No permit data provided" "Input DataFrame is None or empty"
  else
    let valid := validRows df
    if valid.isEmpty then
      validationError "No valid records after date validation"
        ("All " ++ toString df.length ++ " records had invalid dates")
    else
      let recent := recentRows df
      if recent.isEmpty then
        warningResult df.length (df.length - valid.length)
          (valid.length - recent.length)
      else
        successResult df.length (df.length - valid.length) (recent.map mkPermit)

/-- Priority rule table written from the claim's own wording (C2 / spec
§4.4), for comparison with the source-derived `determine_priority`:
ordered rules, first match wins, case-insensitive substring matches. -/
def spec_determine_priority (work_type permit_type : String)
    (value : PyNum) : String :=
  let wt := pyLower work_type
  let pt := pyLower permit_type
  if value.ge 1000000 then "High"
  else if containsStr wt "renovation" || containsStr wt "alteration"
      || containsStr wt "addition" then "High"
  else if containsStr wt "new construction" && containsStr pt "residential"
      then "High"
  else if value.ge 500000 then "Medium"
  else if containsStr pt "residential" then "Medium"
  else "Low"

/-- Contractor rule table written from the claim's own wording (C3 / spec
§4.4), for comparison with the source-derived
`determine_contractor_type`. -/
def spec_determine_contractor_type
    (work_type _permit_type description sub_work_type : String) : String :=
  let wt := pyLower work_type
  let d := pyLower description
  let swt := pyLower sub_work_type
  if containsStr wt "garden suite" || containsStr wt "addition to building"
      || containsStr wt "addition" then "General Contractors"
  else if containsStr d "bathroom" || containsStr swt "bathroom"
      || containsStr d "plumbing" || containsStr swt "plumbing" then "Plumbers"
  else if containsStr wt "interior finish" || containsStr swt "interior finish"
      then "Electricians"
  else "General"

/-- Sample row: applied 2024-01-15, inside the hard-coded window but more
than 12 months before the rest of its batch. -/
def rowJan2024 : RawRow :=
  { permitno := some "P-2024-001", permit_type := some "Commercial"
    permit_status := some "Active", construction_value := some "250000"
    work_type := some "Repair", sub_work_type := some "Office"
    permit_description := some "Roof repair", foldername := some "1 Main St"
    application_date := some 20240115 }

/-- Sample row: applied 2025-12-01, the most recent of its batch. -/
def rowDec2025 : RawRow :=
  { permitno := some "P-2025-900", permit_type := some "Commercial"
    permit_status := some "Active", construction_value := some "300000"
    work_type := some "Repair", sub_work_type := some "Office"
    permit_description := some "Window repair", foldername := some "2 Main St"
    application_date := some 20251201 }

/-- Sample row: applied 2024-02-01 (the earlier of the C4 pair). -/
def rowEarly : RawRow :=
  { permitno := some "P-A", permit_type := some "Residential"
    permit_status := some "Active", construction_value := some "100000"
    work_type := some "Repair", sub_work_type := some "House"
    permit_description := some "d", foldername := some "3 Oak Ave"
    application_date := some 20240201 }

/-- Sample row: applied 2025-03-01 (the later of the C4 pair). -/
def rowLate : RawRow :=
  { permitno := some "P-B", permit_type := some "Residential"
    permit_status := some "Active", construction_value := some "100000"
    work_type := some "Repair", sub_work_type := some "House"
    permit_description := some "d", foldername := some "4 Oak Ave"
    application_date := some 20250301 }

/-- Sample row: a valid application date (2023-06-01) that lies before the
hard-coded window. -/
def rowStale : RawRow :=
  { permitno := some "P-OLD", permit_type := some "Residential"
    permit_status := some "Approved", construction_value := some "400000"
    work_type := some "Renovation", sub_work_type := some "House"
    permit_description := some "Kitchen renovation", foldername := some "5 Elm St"
    application_date := some 20230601 }

/-- Sample row: no parseable application date (NaT after coercion). -/
def rowNoDate : RawRow :=
  { permitno := some "P-ND", permit_type := some "Residential"
    permit_status := some "Pending", construction_value := some "100"
    work_type := some "Repair", sub_work_type := some "House"
    permit_description := some "d", foldername := some "6 Ash Ln"
    application_date := none }

/-- Sample row: raw construction value is the negative text `-5000`,
application date inside the window. -/
def rowNeg : RawRow :=
  { permitno := some "P-NEG", permit_type := some "Commercial"
    permit_status := some "Active", construction_value := some "-5000"
    work_type := some "Repair", sub_work_type := some "Office"
    permit_description := some "Credit adjustment", foldername := some "7 Fir Rd"
    application_date := some 20250601 }

/-! Helper lemmas shared by the claim theorems. -/

theorem transform_eq_cases (df : List RawRow) :
    transform df =
      if df.isEmpty then
        validationError "No permit data provided" "Input DataFrame is None or empty"
      else if (validRows df).isEmpty then
        validationError "No valid records after date validation"
          ("All " ++ toString df.length ++ " records had invalid dates")
      else if (recentRows df).isEmpty then
        warningResult df.length (df.length - (validRows df).length)
          ((validRows df).length - (recentRows df).length)
      else
        successResult df.length (df.length - (validRows df).length)
          (pipelinePermits df) := rfl

theorem priority_enum (wt pt : String) (v : PyNum) :
    determine_priority wt pt v ∈ (["High", "Medium", "Low"] : List String) := by
  simp only [determine_priority]
  split_ifs <;> simp

theorem contractor_enum (wt pt d swt : String) :
    determine_contractor_type wt pt d swt ∈
      (["General Contractors", "Plumbers", "Electricians", "General"] :
        List String) := by
  simp only [determine_contractor_type]
  split_ifs <;> simp

theorem sum_valueCounts (l : List String) :
    ((valueCounts l).map Prod.snd).sum = l.length := by
  unfold valueCounts
  rw [List.map_map]
  exact List.sum_map_count_dedup_eq_length l


/-- C1: the recency filter of `transform_permit_data` does not use a
rolling (reference_date − 12 months) cutoff: on a batch whose most recent
application_date is 2025-12-01, the row dated 2024-01-15 — more than 12
months older than both the batch maximum and any plausible wall clock — is
retained, because the code filters on the fixed window 2024-01-01 ..
2025-12-31 instead. (In the yyyymmdd encoding, subtracting 10000 is
"minus 12 months".) -/
theorem C1_fixed_window_keeps_stale_row :
    (transform [rowJan2024, rowDec2025]).status = "success" ∧
    Option.map (List.map Permit.application_date)
        (transform [rowJan2024, rowDec2025]).permits =
      some [20240115, 20251201] ∧
    20240115 < 20251201 - 10000 := by
  refine ⟨by decide, by decide, by decide⟩

/-- C2: `determine_priority` evaluates exactly the claimed rules in order,
first match wins, on lower-cased text, and the precedence example holds:
construction_value 1,500,000 with work_type "Repair" and permit_type
"Commercial" is High. (The `except` fallback to Low is unreachable in this
total embedding: the pipeline hands the function an already-coerced
numeric value.) -/
theorem C2_priority_rules :
    (∀ wt pt v, determine_priority wt pt v = spec_determine_priority wt pt v) ∧
    determine_priority "Repair" "Commercial" (PyNum.fin 1500000) =
      "High" := by
  refine ⟨fun wt pt v => ?_, by decide⟩
  simp only [determine_priority, spec_determine_priority, List.any_cons,
    List.any_nil, Bool.or_false, Bool.or_assoc]

/-- C3: `determine_contractor_type` evaluates exactly the claimed rules in
order, first match wins, on lower-cased text, and the precedence example
holds: work_type "Addition to Building" with description "bathroom
remodel" is General Contractors, not Plumbers. -/
theorem C3_contractor_rules :
    (∀ wt pt d swt, determine_contractor_type wt pt d swt =
        spec_determine_contractor_type wt pt d swt) ∧
    determine_contractor_type "Addition to Building" "Residential"
        "bathroom remodel" "House" = "General Contractors" := by
  refine ⟨fun wt pt d swt => ?_, by decide⟩
  simp only [determine_contractor_type, spec_determine_contractor_type,
    List.any_cons, List.any_nil, Bool.or_false, Bool.or_assoc]

/-- C9 counterexample: the catch-all exception handler of
`transform_permit_data` labels its structured result with error_type
"processing_error", which is not one of the taxonomy kinds
validation_error / transformation_error / data_fetch_error / no_data /
warning that the claim allows. -/
theorem C9_counterexample :
    (processingError "boom").status = "error" ∧
    (processingError "boom").error_type = some "processing_error" ∧
    "processing_error" ∉
      (["validation_error", "transformation_error", "data_fetch_error",
        "no_data", "warning"] : List String) := by
  refine ⟨rfl, rfl, by decide⟩

/-- C9 (amended): every exception raised by a stage is caught and turned
into a structured error result — nothing leaks — but its error_type is
"processing_error", a label outside the spec's taxonomy; the non-exception
paths of the pipeline only ever label an error result "validation_error". -/
theorem C9_error_classification :
    (∀ df, (transform df).error_type = none ∨
      (transform df).error_type = some "validation_error") ∧
    (∀ det, (processingError det).status = "error" ∧
      (processingError det).error_type = some "processing_error" ∧
      (processingError det).message = some "Error processing permit data") := by
  constructor
  · intro df
    rw [transform_eq_cases]
    by_cases h1 : df.isEmpty <;> by_cases h2 : (validRows df).isEmpty <;>
      by_cases h3 : (recentRows df).isEmpty <;>
      simp [h1, h2, h3, validationError, warningResult, successResult]
  · intro det
    exact ⟨rfl, rfl, rfl⟩


theorem filter_isSome_map_getD (l : List FilledRow) :
    (l.filter (fun r => r.application_date.isSome)).map
        (fun r => r.application_date.getD 0) =
      l.filterMap (fun r => r.application_date) := by
  induction l with
  | nil => rfl
  | cons h t ih =>
    cases hd : h.application_date <;> simp [hd, ih]

theorem transform_permits_shape (df : List RawRow) (ps : List Permit)
    (hp : (transform df).permits = some ps) : ps = pipelinePermits df := by
  rw [transform_eq_cases] at hp
  by_cases h1 : df.isEmpty
  · simp [h1, validationError] at hp
  · by_cases h2 : (validRows df).isEmpty
    · simp [h1, h2, validationError] at hp
    · by_cases h3 : (recentRows df).isEmpty
      · simp [h1, h2, h3, warningResult] at hp
      · simp [h1, h2, h3, successResult] at hp
        exact hp.symm

/-- C4 counterexample: on the two-row batch (2024-02-01 then 2025-03-01),
both rows valid and in the window, the success result lists the older
permit first — the permits list of `transform_permit_data` is not ordered
most-recent-first. -/
theorem C4_counterexample :
    Option.map (List.map Permit.application_date)
        (transform [rowEarly, rowLate]).permits =
      some [20240201, 20250301] ∧
    (20240201 : Nat) < 20250301 := ⟨by decide, by decide⟩

/-- C4 (amended): the permits list of a success result preserves the input
row order — it is the order-preserving subsequence of the input dates that
survived filtering (deterministic and stable for a given input), not a
most-recent-first sort; sorting by date descending happens only in
`clean_building_permits` (`clean_permits.py` line 89). -/
theorem C4_input_order (df : List RawRow) (ps : List Permit)
    (hp : (transform df).permits = some ps) :
    List.Sublist (ps.map Permit.application_date)
      (df.filterMap RawRow.application_date) := by
  rw [transform_permits_shape df ps hp]
  unfold pipelinePermits recentRows
  rw [List.map_map]
  have e1 : (Permit.application_date ∘ mkPermit) =
      fun r : FilledRow => r.application_date.getD 0 := rfl
  rw [e1]
  have e2 : df.filterMap RawRow.application_date =
      (validRows df).map (fun r => r.application_date.getD 0) := by
    unfold validRows
    rw [filter_isSome_map_getD]
    unfold filledRows
    rw [List.filterMap_map]
    rfl
  rw [e2]
  exact List.Sublist.map _ (List.filter_sublist _)

/-- C4 witness: the amended order-preservation fact evaluated on the
concrete two-row batch. -/
theorem C4_witness :
    List.Sublist
      ((pipelinePermits [rowEarly, rowLate]).map Permit.application_date)
      ([rowEarly, rowLate].filterMap RawRow.application_date) :=
  C4_input_order [rowEarly, rowLate] (pipelinePermits [rowEarly, rowLate])
    (by decide)

/-- C5 counterexample: on a batch whose single row has the valid date
2023-06-01 (before the window), the result has status "warning" as claimed
but carries no `permits` key at all — in particular not `permits = []` —
and no `summary` key, so `summary.total_permits = 0` fails too. -/
theorem C5_counterexample :
    (transform [rowStale]).status = "warning" ∧
    (transform [rowStale]).permits = none ∧
    (transform [rowStale]).permits ≠ some ([] : List Permit) ∧
    (transform [rowStale]).summary = none :=
  ⟨by decide, by decide, by decide, by decide⟩

/-- C5 (amended): a batch with at least one valid application date but no
date inside the window yields a "warning" result (never "error"): its
`error_type` is absent, it carries no permits list and no summary, and its
`metadata` block holds the diagnostic counts (records processed, invalid
dates removed, permits filtered out). -/
theorem C5_warning_shape (df : List RawRow)
    (hsome : ∃ r ∈ df, r.application_date.isSome = true)
    (hout : ∀ r ∈ df, ∀ d, r.application_date = some d →
      ¬(startDate ≤ d ∧ d ≤ endDate)) :
    (transform df).status = "warning" ∧
    (transform df).error_type = none ∧
    (transform df).permits = none ∧
    (transform df).summary = none ∧
    (transform df).warn_metadata =
      some { total_records_processed := df.length
             invalid_dates_removed := df.length - (validRows df).length
             old_permits_filtered := (validRows df).length } := by
  obtain ⟨r0, hr0, hs0⟩ := hsome
  have h1 : ¬ df.isEmpty := by
    cases df
    · simp at hr0
    · simp
  have h2 : ¬ (validRows df).isEmpty := by
    have hmem : fillDefaults r0 ∈ validRows df := by
      unfold validRows filledRows
      exact List.mem_filter.mpr ⟨List.mem_map.mpr ⟨r0, hr0, rfl⟩, hs0⟩
    intro hemp
    rw [List.isEmpty_iff] at hemp
    rw [hemp] at hmem
    simp at hmem
  have h3 : recentRows df = [] := by
    unfold recentRows
    apply List.filter_eq_nil_iff.mpr
    intro r hr
    obtain ⟨hrf, -⟩ := List.mem_filter.mp hr
    obtain ⟨r1, hr1, rfl⟩ := List.mem_map.mp hrf
    cases hd : (fillDefaults r1).application_date with
    | none => simp [inWindow, hd]
    | some d =>
      have : r1.application_date = some d := hd
      simp [inWindow, hd, decide_eq_true_eq]
      intro hle
      exact Nat.not_le.mp (fun hge => (hout r1 hr1 d this) ⟨hle, hge⟩)
  have h3e : (recentRows df).isEmpty := by rw [h3]; rfl
  rw [transform_eq_cases]
  simp [h1, h2, h3e, warningResult, h3]

/-- C5 witness: the amended warning shape evaluated on the concrete
one-row batch whose date precedes the window. -/
theorem C5_witness :
    (transform [rowStale]).status = "warning" ∧
    (transform [rowStale]).error_type = none ∧
    (transform [rowStale]).permits = none ∧
    (transform [rowStale]).summary = none ∧
    (transform [rowStale]).warn_metadata =
      some { total_records_processed := [rowStale].length
             invalid_dates_removed :=
               [rowStale].length - (validRows [rowStale]).length
             old_permits_filtered := (validRows [rowStale]).length } :=
  C5_warning_shape [rowStale] (by decide) (by decide)

/-- C6: a non-empty batch in which no row has a parseable application date
(equally: a batch lacking the APPLICATION_DATE field, which the code turns
into an all-NaT column) produces an "error" result with error_type
"validation_error" and no permits, summary or any later-stage output. -/
theorem C6_validation_error (df : List RawRow) (hne : df ≠ [])
    (hall : ∀ r ∈ df, r.application_date = none) :
    (transform df).status = "error" ∧
    (transform df).error_type = some "validation_error" ∧
    (transform df).permits = none ∧
    (transform df).summary = none ∧
    (transform df).message = some "No valid records after date validation" := by
  have h1 : ¬ df.isEmpty := by simp [List.isEmpty_iff, hne]
  have h2 : (validRows df).isEmpty := by
    rw [List.isEmpty_iff]
    unfold validRows filledRows
    apply List.filter_eq_nil_iff.mpr
    intro r hr
    obtain ⟨r0, hr0, rfl⟩ := List.mem_map.mp hr
    simp [fillDefaults, hall r0 hr0]
  rw [transform_eq_cases]
  simp [h1, h2, validationError]

/-- C6 witness: the validation-error outcome evaluated on the concrete
one-row batch with a missing date. -/
theorem C6_witness :
    (transform [rowNoDate]).status = "error" ∧
    (transform [rowNoDate]).error_type = some "validation_error" ∧
    (transform [rowNoDate]).permits = none ∧
    (transform [rowNoDate]).summary = none ∧
    (transform [rowNoDate]).message =
      some "No valid records after date validation" :=
  C6_validation_error [rowNoDate] (by decide) (by decide)


theorem transform_summary_shape (df : List RawRow) (s : Summary)
    (hs : (transform df).summary = some s) :
    s = buildSummary df.length (df.length - (validRows df).length)
      (pipelinePermits df) := by
  rw [transform_eq_cases] at hs
  by_cases h1 : df.isEmpty
  · simp [h1, validationError] at hs
  · by_cases h2 : (validRows df).isEmpty
    · simp [h1, h2, validationError] at hs
    · by_cases h3 : (recentRows df).isEmpty
      · simp [h1, h2, h3, warningResult] at hs
      · simp [h1, h2, h3, successResult] at hs
        exact hs.symm

/-- C7 counterexample: in `transform_permit_data`'s coercion stage
(`pd.to_numeric(errors='coerce')` + `fillna(0.0)`), the currency text
"$1,000" is not stripped and parsed to 1000 — it is unparsable and coerces
to 0. -/
theorem C7_counterexample :
    coerceValue (some "$1,000") = PyNum.fin 0 ∧ PyNum.fin 0 ≠ PyNum.fin 1000 :=
  ⟨by decide, by decide⟩

/-- C7 (amended): in `transform_permit_data`, the value-coercion stage
never drops a row (the permits list has exactly one entry per row that
survived the date filters) and coerces every missing or unparsable
construction value — including currency-formatted text such as "$1,000" —
to 0 without raising; stripping of currency symbols and thousands
separators happens only in `clean_building_permits`, whose parse maps
"$1,000" to 1000. -/
theorem C7_value_coercion (df : List RawRow) (ps : List Permit)
    (hp : (transform df).permits = some ps) :
    ps.length = (recentRows df).length ∧
    coerceValue none = PyNum.fin 0 ∧
    (∀ s, parseDecimal s = none → coerceValue (some s) = PyNum.fin 0) ∧
    coerceValue (some "$1,000") = PyNum.fin 0 ∧
    cleanValue "$1,000" = some (PyNum.fin 1000) := by
  refine ⟨?_, rfl, ?_, by decide, by decide⟩
  · rw [transform_permits_shape df ps hp]
    exact List.length_map _ _
  · intro s hs
    simp [coerceValue, hs]

/-- C7 witness: the amended coercion facts evaluated on a concrete
one-row success batch. -/
theorem C7_witness :
    (pipelinePermits [rowDec2025]).length = (recentRows [rowDec2025]).length ∧
    coerceValue none = PyNum.fin 0 ∧
    (∀ s, parseDecimal s = none → coerceValue (some s) = PyNum.fin 0) ∧
    coerceValue (some "$1,000") = PyNum.fin 0 ∧
    cleanValue "$1,000" = some (PyNum.fin 1000) :=
  C7_value_coercion [rowDec2025] (pipelinePermits [rowDec2025]) (by decide)

/-- C8 counterexample: a row whose raw construction value is the text
"-5000" (valid date inside the window) produces a canonical permit with
construction_value = −5000, violating the claimed `0 ≤ construction_value`
invariant — the pipeline never clamps negative parsed values. The same
holds through the scientific-notation form: the raw text "-1e5" coerces to
−100000. -/
theorem C8_counterexample :
    Option.map (List.map Permit.construction_value)
        (transform [rowNeg]).permits = some [PyNum.fin (-5000)] ∧
    ¬ (PyNum.fin (-5000)).nonneg ∧
    coerceValue (some "-1e5") = PyNum.fin (-100000) ∧
    ¬ (PyNum.fin (-100000)).nonneg :=
  ⟨by decide, by decide, by decide, by decide⟩

/-- C8 (amended): every canonical permit of a success run has
lead_priority in {High, Medium, Low} and contractor_type in
{General Contractors, Plumbers, Electricians, General} for every possible
raw input row, unconditionally; and `0 ≤ construction_value` additionally
holds provided no raw value of the batch coerces to a negative number
(negative raw values — plain or scientific notation or `-inf` — pass
through unclamped, refuting the unconditional claim). -/
theorem C8_enum_invariants (df : List RawRow) (ps : List Permit)
    (hp : (transform df).permits = some ps) :
    ∀ p ∈ ps,
      p.lead_priority ∈ (["High", "Medium", "Low"] : List String) ∧
      p.contractor_type ∈
        (["General Contractors", "Plumbers", "Electricians", "General"] :
          List String) ∧
      ((∀ r ∈ df, (coerceValue r.construction_value).nonneg) →
        p.construction_value.nonneg) := by
  intro p hpmem
  rw [transform_permits_shape df ps hp] at hpmem
  unfold pipelinePermits at hpmem
  obtain ⟨r, hr, rfl⟩ := List.mem_map.mp hpmem
  refine ⟨?_, ?_, ?_⟩
  · show determine_priority (standardize r).work_type
        (standardize r).permit_type
        (coerceValue (standardize r).construction_value) ∈ _
    exact priority_enum _ _ _
  · show determine_contractor_type (standardize r).work_type
        (standardize r).permit_type (standardize r).permit_description
        (standardize r).sub_work_type ∈ _
    exact contractor_enum _ _ _ _
  intro hv
  unfold recentRows at hr
  obtain ⟨hr1, -⟩ := List.mem_filter.mp hr
  unfold validRows at hr1
  obtain ⟨hr2, -⟩ := List.mem_filter.mp hr1
  unfold filledRows at hr2
  obtain ⟨r0, hr0, rfl⟩ := List.mem_map.mp hr2
  exact hv r0 hr0

/-- C8 witness: the amended invariants evaluated at the concrete permit
produced from a one-row batch with a nonnegative raw value, the inner
nonnegativity proviso discharged at that batch. -/
theorem C8_witness :
    (mkPermit (fillDefaults rowDec2025)).lead_priority ∈
      (["High", "Medium", "Low"] : List String) ∧
    (mkPermit (fillDefaults rowDec2025)).contractor_type ∈
      (["General Contractors", "Plumbers", "Electricians", "General"] :
        List String) ∧
    (mkPermit (fillDefaults rowDec2025)).construction_value.nonneg := by
  have h := C8_enum_invariants [rowDec2025] (pipelinePermits [rowDec2025])
    (by decide) (mkPermit (fillDefaults rowDec2025)) (by decide)
  exact ⟨h.1, h.2.1, h.2.2 (by decide)⟩

/-- C10: the summary of a success result is internally consistent with its
permits list: total_permits is the list's length,
records_within_time_range equals total_permits, and the priority and
contractor-type distribution counts each sum to total_permits. -/
theorem C10_summary_consistent (df : List RawRow) (ps : List Permit)
    (s : Summary)
    (hp : (transform df).permits = some ps)
    (hs : (transform df).summary = some s) :
    s.total_permits = ps.length ∧
    s.records_within_time_range = s.total_permits ∧
    (s.priority_distribution.map Prod.snd).sum = s.total_permits ∧
    (s.contractor_type_distribution.map Prod.snd).sum = s.total_permits := by
  rw [transform_summary_shape df s hs, transform_permits_shape df ps hp]
  refine ⟨rfl, rfl, ?_, ?_⟩ <;>
  · show ((valueCounts _).map Prod.snd).sum = (pipelinePermits df).length
    rw [sum_valueCounts]
    exact List.length_map _ _

/-- C10 witness: the summary-consistency facts evaluated on the concrete
two-row success batch. -/
theorem C10_witness :
    (buildSummary 2 0 (pipelinePermits [rowEarly, rowLate])).total_permits =
      (pipelinePermits [rowEarly, rowLate]).length ∧
    (buildSummary 2 0
          (pipelinePermits [rowEarly, rowLate])).records_within_time_range =
      (buildSummary 2 0 (pipelinePermits [rowEarly, rowLate])).total_permits ∧
    ((buildSummary 2 0
          (pipelinePermits [rowEarly, rowLate])).priority_distribution.map
        Prod.snd).sum =
      (buildSummary 2 0 (pipelinePermits [rowEarly, rowLate])).total_permits ∧
    ((buildSummary 2 0
          (pipelinePermits
            [rowEarly, rowLate])).contractor_type_distribution.map
        Prod.snd).sum =
      (buildSummary 2 0 (pipelinePermits [rowEarly, rowLate])).total_permits :=
  C10_summary_consistent [rowEarly, rowLate]
    (pipelinePermits [rowEarly, rowLate])
    (buildSummary 2 0 (pipelinePermits [rowEarly, rowLate]))
    (by decide) (by decide)

end ProBuild
